import Mathlib

/-!
Verification of the jasper orchestration core (plan → execute → validate →
synthesize) against its design specification.

The Python sources are embedded shallowly:

* payload values (the opaque results returned by data providers) become the
  JSON-like inductive `Value`;
* Python string/number primitives used by the code (`str.lower`, substring
  `in`, `float(...)` coercion, `"; ".join`, `round(x, 2)`) become explicit
  Lean functions over `String`/`ℚ`;
* the classes `validator` (agent/validator.py), `compute_confidence`
  (agent/synthesizer.py), `FinancialDataRouter` (jasper/tools/financials.py),
  `Executor` (agent/executor.py) and `JasperController`
  (jasper/core/controller.py) become pure functions; the `async` collaborators
  the controller calls (planner, validator, synthesizer) are modelled as
  explicit `Except`-returning behaviours so that a thrown exception is an
  `.error` value;
* the record types of the (not-included) `core/state.py` module are modelled
  from the specification's data-model section.

Machine reals (Python floats) are modelled by exact rationals `ℚ`; `round`
is modelled as exact half-to-even rounding of the rational value.
-/

namespace Jasper

/-- JSON-like payload value: the shape of data returned by financial data
providers and stored in `task_results`.  Mirrors the Python values the
sources manipulate: `None`, booleans, numbers, strings, lists and dicts. -/
inductive Value where
  | vNull : Value
  | vBool : Bool → Value
  | vInt : Int → Value
  | vStr : String → Value
  | vList : List Value → Value
  | vDict : List (String × Value) → Value

/-- Python truthiness (`if not data:`) for a `Value`: `None`, `False`, `0`,
the empty string, the empty list and the empty dict are falsy. -/
def Value.isTruthy : Value → Bool
  | .vNull => false
  | .vBool b => b
  | .vInt n => n != 0
  | .vStr s => !(s = "")
  | .vList xs => !xs.isEmpty
  | .vDict kvs => !kvs.isEmpty

/-- Python identity test `v is None`. -/
def Value.isNull : Value → Bool
  | .vNull => true
  | _ => false

/-- The router's emptiness test `isinstance(result, (list, dict)) and
len(result) == 0`: true exactly for the empty list and the empty dict. -/
def Value.isEmptyColl : Value → Bool
  | .vList [] => true
  | .vDict [] => true
  | _ => false

/-- Python `d.get(k)` on a dict: `none` when the key is absent. -/
def dictGet (kvs : List (String × Value)) (k : String) : Option Value :=
  (kvs.find? (fun p => p.1 = k)).map (fun p => p.2)

/-- Python `d[k] = v` on an insertion-ordered dict: update in place when the
key exists, append otherwise. -/
def dictSet (kvs : List (String × Value)) (k : String) (v : Value) :
    List (String × Value) :=
  if kvs.any (fun p => p.1 = k) then
    kvs.map (fun p => if p.1 = k then (k, v) else p)
  else
    kvs ++ [(k, v)]

/-- Python `s.lower()` (ASCII case folding, which is all the sources use). -/
def pyLower (s : String) : String := String.mk (s.data.map Char.toLower)

/-- Python `s.upper()`. -/
def pyUpper (s : String) : String := String.mk (s.data.map Char.toUpper)

/-- Python substring test `needle in hay`. -/
def strContains (hay needle : String) : Bool :=
  decide (needle.data <:+: hay.data)

/-- Python `sep.join(parts)`. -/
def joinSep (sep : String) : List String → String
  | [] => ""
  | [x] => x
  | x :: y :: rest => x ++ sep ++ joinSep sep (y :: rest)

/-- Numeric value of a list of decimal digit characters (most significant
first); helper for the `float(...)` model. -/
def digitsVal (cs : List Char) : Nat :=
  cs.foldl (fun acc c => acc * 10 + (c.toNat - 48)) 0

/-- Python `float(s)` on a string, modelled for the decimal forms the data
payloads use: optional sign, then digits with an optional fractional part.
Exponents, infinities, NaN, underscores and surrounding whitespace are not
modelled and count as coercion failures. -/
def pyFloatOfString (s : String) : Option ℚ :=
  let step : List Char → Option ℚ := fun cs =>
    let intPart := cs.takeWhile Char.isDigit
    let rest := cs.dropWhile Char.isDigit
    match rest with
    | [] => if intPart = [] then none else some (digitsVal intPart)
    | '.' :: frac =>
        if frac.all Char.isDigit ∧ (intPart ≠ [] ∨ frac ≠ []) then
          some ((digitsVal intPart : ℚ) + (digitsVal frac : ℚ) / (10 ^ frac.length : ℚ))
        else none
    | _ => none
  match s.data with
  | '-' :: cs => (step cs).map (fun q => -q)
  | '+' :: cs => step cs
  | cs => step cs

/-- Python `float(v)` on a payload value: numbers and booleans convert,
strings are parsed, and `None`/lists/dicts raise `TypeError` (here `none`). -/
def pyFloat : Value → Option ℚ
  | .vInt n => some (n : ℚ)
  | .vBool b => some (if b then 1 else 0)
  | .vStr s => pyFloatOfString s
  | _ => none

/-- Python `round(x, 2)`: exact round-half-to-even of the rational value at
two decimal places. -/
def round2 (q : ℚ) : ℚ :=
  let s : ℚ := q * 100
  let f : Int := ⌊s⌋
  let frac : ℚ := s - (f : ℚ)
  let r : Int :=
    if frac < 1 / 2 then f
    else if 1 / 2 < frac then f + 1
    else if f % 2 = 0 then f else f + 1
  (r : ℚ) / 100

/-- Modelled from the spec: one unit of research work, from the data-model
section of the design (`core/state.py`, not included in the sources). Fields:
unique `id`, free-text `description`, `tool_name` (may be empty), `tool_args`
(string-to-string mapping such as a ticker), `status` string and optional
`error` message. -/
structure Task where
  id : String
  description : String
  tool_name : String := ""
  tool_args : List (String × String) := []
  status : String := "pending"
  error : Option String := none

/-- Python truthiness of `task.error` (`if task.error:`): a present,
non-empty message. -/
def Task.errTruthy (t : Task) : Bool :=
  match t.error with
  | some s => !(s = "")
  | none => false

/-- Modelled from the spec: the four-factor confidence diagnostic
(`core/state.py`, not included in the sources). -/
structure ConfidenceBreakdown where
  data_coverage : ℚ
  data_quality : ℚ
  inference_strength : ℚ
  overall : ℚ
deriving DecidableEq

/-- Modelled from the spec: the validation verdict (`core/state.py`, not
included in the sources): validity flag, ordered issue list, gate confidence
and an optional breakdown (left unset by the validator in the sources). -/
structure validationresult where
  is_valid : Bool
  issues : List String
  confidence : ℚ
  breakdown : Option ConfidenceBreakdown := none

/-- Modelled from the spec: the export snapshot built at successful
completion (`core/state.py`, not included in the sources). -/
structure FinalReport where
  query : String
  data_sources : List String
  tickers : List String
  synthesis_text : String
  is_valid : Bool
  validation_issues : List String
  confidence_score : ℚ
  confidence_breakdown : Option ConfidenceBreakdown := none
  task_count : Nat
  task_results : List (String × Value)

/-- Modelled from the spec: the single mutable state object of one run
(`core/state.py`, not included in the sources).  `task_results` is an
insertion-ordered dict from task id to payload. -/
structure Jasperstate where
  query : String
  plan : List Task := []
  task_results : List (String × Value) := []
  current_task_index : Nat := 0
  status : String := "Pending"
  validation : Option validationresult := none
  final_answer : Option String := none
  error : Option String := none
  error_source : Option String := none
  report : Option FinalReport := none

/-- Check 3 of `validator._validate_financial_consistency`
(agent/validator.py): does one report dict carry a `totalRevenue` entry that
is not `None` and coerces to a negative number?  Coercion failures
(`ValueError`/`TypeError`) are swallowed by the source's `except` clause. -/
def reportHasNegativeRevenue : Value → Bool
  | .vDict kvs =>
      match dictGet kvs "totalRevenue" with
      | some rv =>
          if rv.isNull then false
          else
            match pyFloat rv with
            | some q => q < 0
            | none => false
      | none => false
  | _ => false

/-- The source's normalization `reports = result if isinstance(result, list)
else [result]`: a list payload is traversed element-wise, anything else is a
single report. -/
def normalizeReports : Value → List Value
  | .vList xs => xs
  | v => [v]

/-- Issues produced by `validator._validate_financial_consistency`
(agent/validator.py): one "Negative revenue detected" per offending report,
in `task_results` iteration order. -/
def financialIssues (state : Jasperstate) : List String :=
  state.task_results.flatMap (fun p =>
    (normalizeReports p.2).filterMap (fun r =>
      if reportHasNegativeRevenue r then some "Negative revenue detected"
      else none))

/-- Embedding of `validator.validate` (agent/validator.py): accumulate the
completion, empty-data and financial-consistency issues in order, then derive
the verdict and the gate confidence (0.9 valid / 0.3 invalid). -/
def validate (state : Jasperstate) : validationresult :=
  let issues :=
    (state.plan.filterMap (fun t =>
      if t.status ≠ "completed" then some ("Incomplete task: " ++ t.description)
      else none))
    ++ (state.task_results.filterMap (fun p =>
      if !p.2.isTruthy then some ("Empty data for task " ++ p.1) else none))
    ++ financialIssues state
  let is_valid := issues.isEmpty
  { is_valid := is_valid
    issues := issues
    confidence := if is_valid then 9 / 10 else 3 / 10 }

/-- Embedding of `compute_confidence` (agent/synthesizer.py). -/
def compute_confidence (state : Jasperstate) : ConfidenceBreakdown :=
  if state.plan.isEmpty then
    { data_coverage := 0, data_quality := 0, inference_strength := 0, overall := 0 }
  else
    let coverage : ℚ := (state.task_results.length : ℚ) / (state.plan.length : ℚ)
    let quality0 : ℚ :=
      state.plan.foldl (fun q t => if t.errTruthy then q - 1 / 5 else q) 1
    let quality : ℚ := max 0 quality0
    let inference : ℚ := if 4 / 5 < coverage then 4 / 5 else 1 / 2
    let overall : ℚ := round2 ((coverage + quality + inference) / 3)
    { data_coverage := round2 coverage
      data_quality := round2 quality
      inference_strength := inference
      overall := overall }

/-- Structured error payload carried by the error taxonomy
(jasper/core/errors.py): message, optional suggestion, optional debug
detail. -/
structure JasperError where
  message : String
  suggestion : Option String := none
  debug_details : Option String := none

/-- One data-source capability as the router sees it: a class name and an
`income_statement(ticker)` operation that returns a payload or throws
(`.error` carries the Python `str(e)` of the thrown exception). -/
structure Provider where
  name : String
  income_statement : String → Except String Value

/-- Outcome of invoking one capability inside the router loop
(jasper/tools/financials.py, body of the `for provider` loop): either the
result is accepted, or it is rejected with the diagnostic string appended to
`errors` (thrown failures and null/empty results are recorded alike). -/
inductive CapResult where
  | accept : Value → CapResult
  | reject : String → CapResult

/-- One iteration of `FinancialDataRouter.fetch_income_statement`'s loop:
call the provider, reject `None` and zero-length list/dict results, accept
anything else. -/
def callCapability (p : Provider) (ticker : String) : CapResult :=
  match p.income_statement ticker with
  | .error e => .reject (p.name ++ ": " ++ e)
  | .ok v =>
      if v.isNull then .reject (p.name ++ ": returned None")
      else if v.isEmptyColl then .reject (p.name ++ ": returned empty data")
      else .accept v

/-- Diagnostic string a capability would contribute to the aggregated error;
only meaningful for rejected capabilities (accepted ones short-circuit the
loop before any aggregation). -/
def capDiag (ticker : String) (p : Provider) : String :=
  match callCapability p ticker with
  | .reject d => d
  | .accept _ => p.name

/-- The single aggregated `DataProviderError` raised when every provider is
exhausted (jasper/tools/financials.py, tail of `fetch_income_statement`). -/
def aggregatedError (ticker : String) (errs : List String) : JasperError :=
  { message := "All providers failed to fetch income statement for " ++ ticker
      ++ ". Verify the ticker is valid (e.g., AAPL, RELIANCE.NS, INFY.NS)."
    suggestion := some ("Check that " ++ ticker ++ " is a valid ticker symbol.")
    debug_details := some ("Provider errors: " ++ joinSep "; " errs) }

/-- The router loop of `FinancialDataRouter.fetch_income_statement` with the
accumulated diagnostic list threaded explicitly. -/
def fetchGo (ticker : String) : List Provider → List String → Except JasperError Value
  | [], errs => .error (aggregatedError ticker errs)
  | p :: ps, errs =>
      match callCapability p ticker with
      | .accept v => .ok v
      | .reject d => fetchGo ticker ps (errs ++ [d])

/-- Embedding of `FinancialDataRouter.fetch_income_statement`
(jasper/tools/financials.py). -/
def fetch_income_statement (providers : List Provider) (ticker : String) :
    Except JasperError Value :=
  fetchGo ticker providers []

/-- Indices (0-based list positions, offset by the accumulator) of the
providers the router loop invokes, in invocation order: every provider up to
and including the first accepted one. -/
def fetchInvokedFrom (ticker : String) : List Provider → Nat → List Nat
  | [], _ => []
  | p :: ps, i =>
      match callCapability p ticker with
      | .accept _ => [i]
      | .reject _ => i :: fetchInvokedFrom ticker ps (i + 1)

/-- Indices of the providers invoked by `fetch_income_statement`, in
invocation order. -/
def fetchInvoked (providers : List Provider) (ticker : String) : List Nat :=
  fetchInvokedFrom ticker providers 0

/-- Python `d.get(k)` on a string-to-string dict (task `tool_args`). -/
def dictGetS (kvs : List (String × String)) (k : String) : Option String :=
  (kvs.find? (fun p => p.1 = k)).map (fun p => p.2)

/-- Result of one `Executor.execute_task` call: the updated state, the
mutated task, and (instrumentation) the tickers passed to the router's
fetch operation during the call. -/
structure ExecOutcome where
  state : Jasperstate
  task : Task
  fetchCalls : List String

/-- Embedding of `Executor.execute_task` (agent/executor.py).  The router is
abstracted to its fetch behaviour `fetch : ticker → payload or str(e)`, as in
the source where it is an injected dependency.  The ticker lookup models
`ticker = task.tool_args.get("ticker")` guarded by `if task.tool_args:`,
followed by the falsiness test `if not ticker:` (absent or empty string). -/
def execute_task (fetch : String → Except String Value)
    (state : Jasperstate) (task : Task) : ExecOutcome :=
  let task := { task with status := "in_progress" }
  let fail : String → ExecOutcome := fun msg =>
    ⟨state, { task with status := "failed", error := some msg }, []⟩
  if strContains (pyLower task.description) "income statement" then
    match dictGetS task.tool_args "ticker" with
    | some tk =>
        if tk = "" then
          fail ("No ticker found for task: " ++ task.description)
        else
          match fetch tk with
          | .ok v =>
              ⟨{ state with task_results := dictSet state.task_results task.id v },
               { task with status := "completed" }, [tk]⟩
          | .error e =>
              ⟨state, { task with status := "failed", error := some e }, [tk]⟩
    | none => fail ("No ticker found for task: " ++ task.description)
  else
    fail ("Unknown task description: " ++ task.description)

/-- Python `s.title()`: capitalize the first letter of every alphabetic run,
lowercase the rest. -/
def pyTitle (s : String) : String :=
  String.mk (s.data.foldl
    (fun (acc : List Char × Bool) c =>
      if c.isAlpha then
        (acc.1 ++ [if acc.2 then c.toLower else c.toUpper], true)
      else (acc.1 ++ [c], false))
    ([], false)).1

/-- Source-label humanization in `_build_final_report`:
`tool_name.replace("_", " ").title()`. -/
def humanizeSource (s : String) : String :=
  pyTitle (String.mk (s.data.map (fun c => if c = '_' then ' ' else c)))

/-- Deduplicate a list keeping first occurrences, preserving order (the
ticker-deduplication loop in `_build_final_report`; also used to model the
Python `set` of source labels, whose iteration order is unspecified in
Python and fixed here to first-seen order). -/
def dedupKeepOrder (xs : List String) : List String :=
  xs.foldl (fun acc x => if acc.contains x then acc else acc ++ [x]) []

/-- Python `a or b` over optional strings, as in
`task.tool_args.get("ticker") or task.tool_args.get("symbol")`: yield the
first truthy operand, else the second operand. -/
def orFalsy (a b : Option String) : Option String :=
  match a with
  | some s => if s = "" then b else some s
  | none => b

/-- Embedding of `JasperController._build_final_report`
(jasper/core/controller.py): tickers pulled from `tool_args` key aliases
(`ticker` then `symbol`), upper-cased, deduplicated in first-seen order;
humanized source labels with a fixed fallback set when none are present;
validation data copied from the state. -/
def build_final_report (state : Jasperstate) : FinalReport :=
  let tickers := state.plan.filterMap (fun t =>
    match orFalsy (dictGetS t.tool_args "ticker") (dictGetS t.tool_args "symbol") with
    | some s => if s = "" then none else some (pyUpper s)
    | none => none)
  let unique_tickers := dedupKeepOrder tickers
  let sources := dedupKeepOrder (state.plan.filterMap (fun t =>
    if t.tool_name = "" then none else some (humanizeSource t.tool_name)))
  let sources := if sources.isEmpty then ["SEC EDGAR", "Financial Data Providers"]
    else sources
  { query := state.query
    data_sources := sources
    tickers := unique_tickers
    synthesis_text := state.final_answer.getD ""
    is_valid := (state.validation.map (fun v => v.is_valid)).getD false
    validation_issues := (state.validation.map (fun v => v.issues)).getD []
    confidence_score := (state.validation.map (fun v => v.confidence)).getD 0
    confidence_breakdown := (state.validation.map (fun v => v.breakdown)).getD none
    task_count := state.plan.length
    task_results := state.task_results }

/-- Embedding of the synthesis-failure classification in
`JasperController.run` (jasper/core/controller.py): the error message and
`error_source` chosen from the failure's message text, in fixed priority
order (service, then auth, then timeout, then unknown). -/
def classify_synthesis_error (msg : String) : String × String :=
  if strContains msg "524" || strContains (pyLower msg) "provider returned error" then
    ("LLM service error (code 524): Temporary rate limit. Please try again in a moment.",
     "llm_service")
  else if strContains msg "401" || strContains (pyLower msg) "unauthorized" then
    ("LLM authentication failed. Check your OpenRouter API key.", "llm_auth")
  else if strContains (pyLower msg) "timeout" then
    ("LLM request timed out. Please try again.", "llm_timeout")
  else
    ("Answer synthesis failed: " ++ msg, "llm_unknown")

/-- Event types emitted through the controller's logger, in emission order;
used to observe which stages a run actually reached. -/
inductive RunEvent where
  | PLAN_CREATED
  | TASK_STARTED
  | TASK_COMPLETED
  | VALIDATION_STARTED
  | VALIDATION_ERROR
  | VALIDATION_FAILED
  | SYNTHESIS_STARTED
  | FINAL_ANSWER
  | REPORT_CREATED
  | SYNTHESIS_ERROR
  | WORKFLOW_ERROR
deriving DecidableEq

/-- The controller's injected collaborators, each modelled by its behaviour;
`.error` carries `str(e)` of a thrown exception.  The Execution Stage itself
is the concrete `Executor` (its contract: total, never raises), so only the
router fetch behaviour inside it is abstract. -/
structure Collaborators where
  plan : String → Except String (List Task)
  fetch : String → Except String Value
  validate : Jasperstate → Except String validationresult
  synthesize : Jasperstate → Except String String

/-- The Execution Stage as the controller consumes it:
`execute(state, task) -> ()` modelled as returning the updated state and the
mutated task. -/
def execStep (fetch : String → Except String Value) :
    Jasperstate → Task → Jasperstate × Task := fun st t =>
  ((execute_task fetch st t).state, (execute_task fetch st t).task)

/-- The controller's execution loop over the plan, strictly in order: set
`current_task_index`, delegate to the Execution Stage, and write the mutated
task back into the plan (in Python the task object is aliased by the plan
list).  Emits `TASK_STARTED`/`TASK_COMPLETED` around every task. -/
def runTasks (ex : Jasperstate → Task → Jasperstate × Task) :
    Jasperstate → List Task → List Task → Nat → Jasperstate × List RunEvent
  | st, _, [], _ => (st, [])
  | st, done, t :: rest, i =>
      let st1 := { st with current_task_index := i }
      let r := ex st1 t
      let st2 := { r.1 with plan := done ++ r.2 :: rest }
      let rec_ := runTasks ex st2 (done ++ [r.2]) rest (i + 1)
      (rec_.1, [RunEvent.TASK_STARTED, RunEvent.TASK_COMPLETED] ++ rec_.2)

/-- The synthesis block of `JasperController.run` (the inner `try` around
`synthesizer.synthesize`): on success set `final_answer`, complete, build the
report; on failure classify the message into `error`/`error_source` and
fail. -/
def synthesisPhase (c : Collaborators) (state : Jasperstate) :
    Jasperstate × List RunEvent :=
  match c.synthesize state with
  | .ok ans =>
      let state1 := { state with final_answer := some ans, status := "Completed" }
      let state2 := { state1 with report := some (build_final_report state1) }
      (state2, [RunEvent.FINAL_ANSWER, RunEvent.REPORT_CREATED])
  | .error m =>
      let cls := classify_synthesis_error m
      ({ state with status := "Failed", error := some cls.1, error_source := some cls.2 },
       [RunEvent.SYNTHESIS_ERROR])

/-- The validation block of `JasperController.run`: the validator's own
exception handler, the `is_valid` hard gate, and the transition to the
synthesis phase on valid evidence. -/
def validationPhase (c : Collaborators) (state : Jasperstate) :
    Jasperstate × List RunEvent :=
  match c.validate state with
  | .error e =>
      ({ state with status := "Failed", error := some ("Validation error: " ++ e) },
       [RunEvent.VALIDATION_ERROR])
  | .ok v =>
      let state1 := { state with validation := some v }
      if v.is_valid then
        let state2 := { state1 with status := "Synthesizing" }
        let r := synthesisPhase c state2
        (r.1, RunEvent.SYNTHESIS_STARTED :: r.2)
      else
        ({ state1 with status := "Failed" }, [RunEvent.VALIDATION_FAILED])

/-- Embedding of `JasperController.run` (jasper/core/controller.py),
returning the final state together with the emitted event log.  Mirrors the
source's control flow: planning inside the outer catch-all; the execution
loop; validation with its own exception handler and the `is_valid` hard
gate; synthesis with message-based failure classification; report
construction on success. -/
def runController (c : Collaborators) (query : String) :
    Jasperstate × List RunEvent :=
  let state : Jasperstate := { query := query, status := "Planning" }
  match c.plan query with
  | .error e => ({ state with status := "Failed", error := some e },
      [RunEvent.WORKFLOW_ERROR])
  | .ok plan =>
    let state1 := { state with plan := plan, status := "Executing" }
    let execRes := runTasks (execStep c.fetch) state1 [] plan 0
    let state2 := { execRes.1 with status := "Validating" }
    let r := validationPhase c state2
    (r.1, RunEvent.PLAN_CREATED :: execRes.2 ++ RunEvent.VALIDATION_STARTED :: r.2)

/-! Helper lemmas about the string primitives, the router loop and the
controller's execution loop. -/

theorem strAppend_assoc (a b c : String) : a ++ b ++ c = a ++ (b ++ c) := by
  apply String.ext
  simp [String.data_append, List.append_assoc]

theorem str_ne_empty_iff (s : String) : s ≠ "" ↔ s.data ≠ [] := by
  constructor
  · intro h hd
    exact h (String.ext hd)
  · intro h he
    rw [he] at h
    exact h rfl

theorem append_ne_empty_left (s t : String) (h : s ≠ "") : s ++ t ≠ "" := by
  rw [str_ne_empty_iff] at h ⊢
  rw [String.data_append]
  intro hc
  exact h (List.append_eq_nil.mp hc).1

theorem strContains_of_decomp (hay x pre post : String)
    (h : hay = pre ++ x ++ post) : strContains hay x = true := by
  apply decide_eq_true
  refine ⟨pre.data, post.data, ?_⟩
  rw [h, String.data_append, String.data_append]

theorem joinSep_mem_decomp (sep x : String) :
    ∀ l : List String, x ∈ l → ∃ pre post, joinSep sep l = pre ++ x ++ post
  | [], h => absurd h (List.not_mem_nil x)
  | [y], h => by
      rcases List.mem_singleton.mp h with rfl
      refine ⟨"", "", ?_⟩
      rw [String.empty_append, String.append_empty]
      rfl
  | y :: z :: rest, h => by
      rcases List.mem_cons.mp h with rfl | htail
      · refine ⟨"", sep ++ joinSep sep (z :: rest), ?_⟩
        rw [joinSep]
        apply String.ext
        simp [String.data_append, List.append_assoc]
      · obtain ⟨pre, post, hp⟩ := joinSep_mem_decomp sep x (z :: rest) htail
        refine ⟨y ++ sep ++ pre, post, ?_⟩
        rw [joinSep, hp]
        apply String.ext
        simp [String.data_append, List.append_assoc]

/-- Number of providers the router loop invokes: all of them up to and
including the first accepted one. -/
def invokedCount (ticker : String) : List Provider → Nat
  | [] => 0
  | p :: ps =>
      match callCapability p ticker with
      | .accept _ => 1
      | .reject _ => invokedCount ticker ps + 1

theorem invokedCount_le_length (ticker : String) :
    ∀ ps : List Provider, invokedCount ticker ps ≤ ps.length := by
  intro ps
  induction ps with
  | nil => simp [invokedCount]
  | cons p ps ih =>
      cases h : callCapability p ticker with
      | accept v => simp [invokedCount, h]
      | reject d => simp [invokedCount, h]; omega

theorem fetchInvokedFrom_eq (ticker : String) :
    ∀ (ps : List Provider) (i : Nat),
      fetchInvokedFrom ticker ps i
        = (List.range (invokedCount ticker ps)).map (fun j => i + j) := by
  intro ps
  induction ps with
  | nil => intro i; simp [fetchInvokedFrom, invokedCount]
  | cons p ps ih =>
      intro i
      cases h : callCapability p ticker with
      | accept v => simp [fetchInvokedFrom, invokedCount, h, List.range_succ]
      | reject d =>
          have hstep : ∀ j : Nat, (i + 1) + j = i + Nat.succ j := by intro j; omega
          simp [fetchInvokedFrom, invokedCount, h, ih, List.range_succ_eq_map,
            List.map_map, Function.comp_def, hstep]

theorem fetchInvoked_eq_range (providers : List Provider) (ticker : String) :
    fetchInvoked providers ticker = List.range (invokedCount ticker providers) := by
  unfold fetchInvoked
  rw [fetchInvokedFrom_eq]
  simp

theorem capDiag_eq_of_reject (ticker : String) (p : Provider) (d : String)
    (h : callCapability p ticker = CapResult.reject d) : capDiag ticker p = d := by
  unfold capDiag
  rw [h]

theorem capDiag_starts_with_name (ticker : String) (p : Provider) :
    ∃ suf, capDiag ticker p = p.name ++ suf := by
  unfold capDiag callCapability
  cases h : p.income_statement ticker with
  | error e =>
      exact ⟨": " ++ e, by simp [strAppend_assoc]⟩
  | ok v =>
      by_cases hn : v.isNull = true
      · simp [hn]
      · by_cases he : v.isEmptyColl = true
        · simp [hn, he]
        · refine ⟨"", ?_⟩
          simp [hn, he, String.append_empty]

theorem fetchGo_all_reject (ticker : String) :
    ∀ (ps : List Provider) (errs : List String),
      (∀ p ∈ ps, ∃ d, callCapability p ticker = CapResult.reject d) →
      fetchGo ticker ps errs
        = .error (aggregatedError ticker (errs ++ ps.map (capDiag ticker))) := by
  intro ps
  induction ps with
  | nil => intro errs _; simp [fetchGo]
  | cons p ps ih =>
      intro errs hall
      obtain ⟨d, hd⟩ := hall p (List.mem_cons_self p ps)
      have htail : ∀ q ∈ ps, ∃ d2, callCapability q ticker = CapResult.reject d2 :=
        fun q hq => hall q (List.mem_cons_of_mem p hq)
      rw [fetchGo, hd]
      show fetchGo ticker ps (errs ++ [d]) = _
      rw [ih (errs ++ [d]) htail]
      simp [List.map_cons, capDiag_eq_of_reject ticker p d hd, List.append_assoc]

theorem fetchGo_ok_decomp (ticker : String) (v : Value) :
    ∀ (ps : List Provider) (errs : List String),
      fetchGo ticker ps errs = .ok v →
      ∃ pre p post, ps = pre ++ p :: post ∧
        callCapability p ticker = CapResult.accept v ∧
        ∀ q ∈ pre, ∃ d, callCapability q ticker = CapResult.reject d := by
  intro ps
  induction ps with
  | nil => intro errs h; simp [fetchGo] at h
  | cons p ps ih =>
      intro errs h
      cases hc : callCapability p ticker with
      | accept w =>
          rw [fetchGo, hc] at h
          obtain rfl : w = v := by injection h
          exact ⟨[], p, ps, rfl, hc, by intro q hq; simp at hq⟩
      | reject d =>
          rw [fetchGo, hc] at h
          obtain ⟨pre, p0, post, hps, hacc, hrej⟩ := ih (errs ++ [d]) h
          refine ⟨p :: pre, p0, post, by simp [hps], hacc, ?_⟩
          intro q hq
          rcases List.mem_cons.mp hq with rfl | hq2
          · exact ⟨d, hc⟩
          · exact hrej q hq2

theorem fetchGo_ok_of_decomp (ticker : String) (v : Value) :
    ∀ (pre : List Provider) (p : Provider) (post : List Provider) (errs : List String),
      (∀ q ∈ pre, ∃ d, callCapability q ticker = CapResult.reject d) →
      callCapability p ticker = CapResult.accept v →
      fetchGo ticker (pre ++ p :: post) errs = .ok v := by
  intro pre
  induction pre with
  | nil =>
      intro p post errs _ hacc
      rw [List.nil_append, fetchGo, hacc]
  | cons q pre ih =>
      intro p post errs hrej hacc
      obtain ⟨d, hd⟩ := hrej q (List.mem_cons_self q pre)
      rw [List.cons_append, fetchGo, hd]
      exact ih p post (errs ++ [d])
        (fun r hr => hrej r (List.mem_cons_of_mem q hr)) hacc

theorem invokedCount_decomp (ticker : String) (v : Value) :
    ∀ (pre : List Provider) (p : Provider) (post : List Provider),
      (∀ q ∈ pre, ∃ d, callCapability q ticker = CapResult.reject d) →
      callCapability p ticker = CapResult.accept v →
      invokedCount ticker (pre ++ p :: post) = pre.length + 1 := by
  intro pre
  induction pre with
  | nil =>
      intro p post _ hacc
      simp [invokedCount, hacc]
  | cons q pre ih =>
      intro p post hrej hacc
      obtain ⟨d, hd⟩ := hrej q (List.mem_cons_self q pre)
      have := ih p post (fun r hr => hrej r (List.mem_cons_of_mem q hr)) hacc
      simp [invokedCount, hd, this]

theorem runTasks_events (ex : Jasperstate → Task → Jasperstate × Task) :
    ∀ (todo : List Task) (st : Jasperstate) (done : List Task) (i : Nat),
      ∀ e ∈ (runTasks ex st done todo i).2,
        e = RunEvent.TASK_STARTED ∨ e = RunEvent.TASK_COMPLETED := by
  intro todo
  induction todo with
  | nil => intro st done i e he; simp [runTasks] at he
  | cons t rest ih =>
      intro st done i e he
      rw [runTasks] at he
      simp only [List.cons_append, List.nil_append, List.mem_cons] at he
      rcases he with rfl | he
      · exact Or.inl rfl
      · rcases he with rfl | he
        · exact Or.inr rfl
        · exact ih _ _ _ e he

/-- The Execution Stage touches only `task_results` on the state: every
other state field is untouched by `execute_task`. -/
theorem execute_task_state_fields (f : String → Except String Value)
    (st : Jasperstate) (t : Task) :
    (execute_task f st t).state.query = st.query ∧
    (execute_task f st t).state.plan = st.plan ∧
    (execute_task f st t).state.current_task_index = st.current_task_index ∧
    (execute_task f st t).state.status = st.status ∧
    (execute_task f st t).state.validation = st.validation ∧
    (execute_task f st t).state.final_answer = st.final_answer ∧
    (execute_task f st t).state.error = st.error ∧
    (execute_task f st t).state.error_source = st.error_source ∧
    (execute_task f st t).state.report = st.report := by
  by_cases hc : strContains (pyLower t.description) "income statement" = true
  · rcases hg : dictGetS t.tool_args "ticker" with _ | tk
    · simp [execute_task, hc, hg]
    · by_cases htk : tk = ""
      · subst htk
        simp [execute_task, hc, hg]
      · rcases hf : f tk with e | v <;> simp [execute_task, hc, hg, htk, hf]
  · rw [Bool.not_eq_true] at hc
    simp [execute_task, hc]

/-- The controller's execution loop touches only `task_results`, `plan` and
`current_task_index`: the lifecycle fields pass through unchanged. -/
theorem runTasks_preserves (f : String → Except String Value) :
    ∀ (todo : List Task) (st : Jasperstate) (done : List Task) (i : Nat),
      (runTasks (execStep f) st done todo i).1.query = st.query ∧
      (runTasks (execStep f) st done todo i).1.status = st.status ∧
      (runTasks (execStep f) st done todo i).1.validation = st.validation ∧
      (runTasks (execStep f) st done todo i).1.final_answer = st.final_answer ∧
      (runTasks (execStep f) st done todo i).1.error = st.error ∧
      (runTasks (execStep f) st done todo i).1.error_source = st.error_source ∧
      (runTasks (execStep f) st done todo i).1.report = st.report := by
  intro todo
  induction todo with
  | nil => intro st done i; simp [runTasks]
  | cons t rest ih =>
      intro st done i
      have hex := execute_task_state_fields f { st with current_task_index := i } t
      rw [runTasks]
      have hih := ih { ((execStep f { st with current_task_index := i } t).1) with
        plan := done ++ (execStep f { st with current_task_index := i } t).2 :: rest }
        (done ++ [(execStep f { st with current_task_index := i } t).2]) (i + 1)
      simp only [execStep] at hih ⊢
      simp only [hih]
      simp [hex.1, hex.2.2.2.1, hex.2.2.2.2.1, hex.2.2.2.2.2.1,
        hex.2.2.2.2.2.2.1, hex.2.2.2.2.2.2.2.1, hex.2.2.2.2.2.2.2.2]

/-- The synthesis phase never changes the recorded validation verdict. -/
theorem synthesisPhase_validation (c : Collaborators) (st : Jasperstate) :
    (synthesisPhase c st).1.validation = st.validation := by
  rcases h : c.synthesize st with m | ans <;> simp [synthesisPhase, h]

/-- When the run's recorded verdict is invalid and the incoming state had no
verdict yet, the validation phase must have taken the hard-gate branch:
status Failed, verdict recorded, only `VALIDATION_FAILED` emitted. -/
theorem validationPhase_gate (c : Collaborators) (st : Jasperstate) (v : validationresult)
    (hnone : st.validation = none)
    (hv : (validationPhase c st).1.validation = some v)
    (hinv : v.is_valid = false) :
    (validationPhase c st).1 = { st with validation := some v, status := "Failed" } ∧
    (validationPhase c st).2 = [RunEvent.VALIDATION_FAILED] := by
  rcases hval : c.validate st with e | v2
  · simp only [validationPhase, hval] at hv
    simp [hnone] at hv
  · simp only [validationPhase, hval] at hv ⊢
    cases hb : v2.is_valid with
    | true =>
        simp only [hb, if_true] at hv
        rw [synthesisPhase_validation] at hv
        simp at hv
        subst hv
        rw [hb] at hinv
        exact absurd hinv (by simp)
    | false =>
        simp only [hb, if_false] at hv ⊢
        simp at hv
        subst hv
        exact ⟨rfl, rfl⟩

/-! Concrete capability behaviours used by witnesses and counterexamples. -/

/-- A capability that returns `None` for every ticker. -/
def mockNullProvider : Provider :=
  { name := "MockProvider", income_statement := fun _ => .ok Value.vNull }

/-- A capability that throws for every ticker. -/
def failingProviderA : Provider :=
  { name := "AlphaVantageClient", income_statement := fun _ => .error "boom" }

/-- A capability that returns a non-empty payload for every ticker. -/
def okProviderB : Provider :=
  { name := "YFinanceClient",
    income_statement := fun _ => .ok (Value.vDict [("totalRevenue", Value.vInt 100)]) }

/-- A capability placed after the succeeding one; the router must never
invoke it. -/
def neverCalledProviderC : Provider :=
  { name := "NeverCalled", income_statement := fun _ => .ok (Value.vInt 1) }

/-- Claim C3: the Router's fetch tries capabilities strictly in list order,
rejects a result iff it is null or a zero-entry mapping/sequence, returns
the first non-rejected result immediately without invoking any later
capability, and invokes each capability at most once. -/
theorem router_first_success_short_circuits (providers : List Provider) (ticker : String) :
    (∃ k ≤ providers.length, fetchInvoked providers ticker = List.range k) ∧
    (fetchInvoked providers ticker).Pairwise (· < ·) ∧
    (∀ v, fetch_income_statement providers ticker = .ok v →
      ∃ pre p post, providers = pre ++ p :: post ∧
        callCapability p ticker = CapResult.accept v ∧
        (∀ q ∈ pre, ∃ d, callCapability q ticker = CapResult.reject d) ∧
        fetchInvoked providers ticker = List.range (pre.length + 1)) ∧
    (∀ pre p post v, providers = pre ++ p :: post →
      (∀ q ∈ pre, ∃ d, callCapability q ticker = CapResult.reject d) →
      callCapability p ticker = CapResult.accept v →
      fetch_income_statement providers ticker = .ok v ∧
        fetchInvoked providers ticker = List.range (pre.length + 1)) ∧
    (∀ p v, p.income_statement ticker = .ok v →
      ((∃ d, callCapability p ticker = CapResult.reject d) ↔
        (v.isNull = true ∨ v.isEmptyColl = true))) := by
  refine ⟨⟨invokedCount ticker providers, invokedCount_le_length ticker providers,
      fetchInvoked_eq_range providers ticker⟩, ?_, ?_, ?_, ?_⟩
  · rw [fetchInvoked_eq_range]
    exact List.pairwise_lt_range _
  · intro v hok
    obtain ⟨pre, p, post, hps, hacc, hrej⟩ :=
      fetchGo_ok_decomp ticker v providers [] hok
    refine ⟨pre, p, post, hps, hacc, hrej, ?_⟩
    rw [fetchInvoked_eq_range, hps, invokedCount_decomp ticker v pre p post hrej hacc]
  · intro pre p post v hps hrej hacc
    subst hps
    exact ⟨fetchGo_ok_of_decomp ticker v pre p post [] hrej hacc,
      by rw [fetchInvoked_eq_range, invokedCount_decomp ticker v pre p post hrej hacc]⟩
  · intro p v hok
    constructor
    · intro ⟨d, hd⟩
      unfold callCapability at hd
      rw [hok] at hd
      by_cases hn : v.isNull = true
      · exact Or.inl hn
      · by_cases he : v.isEmptyColl = true
        · exact Or.inr he
        · simp [hn, he] at hd
    · intro h
      unfold callCapability
      rw [hok]
      rcases h with hn | he
      · exact ⟨p.name ++ ": returned None", by simp [hn]⟩
      · by_cases hn : v.isNull = true
        · exact ⟨p.name ++ ": returned None", by simp [hn]⟩
        · exact ⟨p.name ++ ": returned empty data", by simp [hn, he]⟩

/-- Witness for C3 at the spec's example: capability A fails, B returns a
non-empty payload, C comes after B; fetch returns B's payload and invokes
exactly A then B. -/
theorem router_first_success_short_circuits_witness :
    fetch_income_statement [failingProviderA, okProviderB, neverCalledProviderC] "AAPL"
      = .ok (Value.vDict [("totalRevenue", Value.vInt 100)]) ∧
    fetchInvoked [failingProviderA, okProviderB, neverCalledProviderC] "AAPL" = [0, 1] := by
  have h := (router_first_success_short_circuits
    [failingProviderA, okProviderB, neverCalledProviderC] "AAPL").2.2.2.1
  have hrej : ∀ q ∈ [failingProviderA],
      ∃ d, callCapability q "AAPL" = CapResult.reject d := by
    intro q hq
    rcases List.mem_singleton.mp hq with rfl
    exact ⟨"AlphaVantageClient: boom", rfl⟩
  have h2 := h [failingProviderA] okProviderB [neverCalledProviderC]
    (Value.vDict [("totalRevenue", Value.vInt 100)]) rfl hrej rfl
  exact ⟨h2.1, by rw [h2.2]; rfl⟩

/-- Counterexample for C4: with one capability returning `None`, the
aggregated error's debug detail is not the bare semicolon-joined
concatenation of the diagnostics — it carries the fixed prefix
"Provider errors: ". -/
theorem router_debug_detail_prefix_counterexample :
    fetch_income_statement [mockNullProvider] "AAPL"
      = .error (aggregatedError "AAPL" ["MockProvider: returned None"]) ∧
    joinSep "; " ["MockProvider: returned None"] = "MockProvider: returned None" ∧
    (aggregatedError "AAPL" ["MockProvider: returned None"]).debug_details
      = some "Provider errors: MockProvider: returned None" ∧
    some "Provider errors: MockProvider: returned None"
      ≠ some "MockProvider: returned None" := by
  refine ⟨rfl, rfl, rfl, by decide⟩

/-- Claim C4 (amended): when every capability fails or is rejected, fetch
returns a single aggregated error whose message names the ticker and whose
debug detail is the fixed label "Provider errors: " followed by every
capability's diagnostic, semicolon-separated, in try order; every
capability's name appears in it. -/
theorem router_exhaustion_aggregated_error (providers : List Provider) (ticker : String)
    (hall : ∀ p ∈ providers, ∃ d, callCapability p ticker = CapResult.reject d) :
    ∃ err, fetch_income_statement providers ticker = .error err ∧
      (∃ pre post, err.message = pre ++ ticker ++ post) ∧
      err.debug_details
        = some ("Provider errors: " ++ joinSep "; " (providers.map (capDiag ticker))) ∧
      (∀ p ∈ providers, ∃ d, callCapability p ticker = CapResult.reject d ∧
        capDiag ticker p = d) ∧
      (∀ p ∈ providers, ∃ pre post,
        "Provider errors: " ++ joinSep "; " (providers.map (capDiag ticker))
          = pre ++ p.name ++ post) := by
  refine ⟨aggregatedError ticker (providers.map (capDiag ticker)), ?_, ?_, rfl, ?_, ?_⟩
  · have h := fetchGo_all_reject ticker providers [] hall
    rw [List.nil_append] at h
    exact h
  · exact ⟨"All providers failed to fetch income statement for ",
      ". Verify the ticker is valid (e.g., AAPL, RELIANCE.NS, INFY.NS).", rfl⟩
  · intro p hp
    obtain ⟨d, hd⟩ := hall p hp
    exact ⟨d, hd, capDiag_eq_of_reject ticker p d hd⟩
  · intro p hp
    obtain ⟨pre2, post2, hj⟩ := joinSep_mem_decomp "; " (capDiag ticker p)
      (providers.map (capDiag ticker)) (List.mem_map_of_mem (capDiag ticker) hp)
    obtain ⟨suf, hs⟩ := capDiag_starts_with_name ticker p
    refine ⟨"Provider errors: " ++ pre2, suf ++ post2, ?_⟩
    rw [hj, hs]
    apply String.ext
    simp [String.data_append, List.append_assoc]

/-- Witness for C4 (amended) with two capabilities, one null and one
throwing: both names appear in the debug detail, in try order. -/
theorem router_exhaustion_aggregated_error_witness :
    ∃ err, fetch_income_statement [mockNullProvider, failingProviderA] "TSLA" = .error err ∧
      err.debug_details
        = some "Provider errors: MockProvider: returned None; AlphaVantageClient: boom" := by
  have hall : ∀ p ∈ [mockNullProvider, failingProviderA],
      ∃ d, callCapability p "TSLA" = CapResult.reject d := by
    intro p hp
    rcases List.mem_cons.mp hp with rfl | hp2
    · exact ⟨"MockProvider: returned None", rfl⟩
    · rcases List.mem_singleton.mp hp2 with rfl
      exact ⟨"AlphaVantageClient: boom", rfl⟩
  obtain ⟨err, h1, _, h3, _, _⟩ :=
    router_exhaustion_aggregated_error [mockNullProvider, failingProviderA] "TSLA" hall
  refine ⟨err, h1, ?_⟩
  rw [h3]
  rfl

/-- Fetch behaviour used by the executor witnesses: always succeeds with a
small payload. -/
def wFetchOk : String → Except String Value := fun _ => .ok (Value.vInt 7)

/-- State used by the executor witnesses. -/
def wStateQ : Jasperstate := { query := "q" }

/-- Task used by the C2 witness: an income-statement task with a ticker. -/
def wTaskIncome : Task :=
  { id := "t1", description := "Fetch AAPL income statement",
    tool_args := [("ticker", "AAPL")] }

/-- Task used by the C10 witness: description lacking the routing substring. -/
def wTaskOther : Task := { id := "t1", description := "Fetch cash flow" }

/-- Claim C2: `execute_task` is total (never raises) and always leaves the
task completed or failed; on router success it stores the payload under the
task's id and sets status completed; on any failure (missing ticker, router
error, unknown description) it sets status failed and `error` to the
failure's message, mutating nothing else. -/
theorem execute_task_never_raises (fetch : String → Except String Value)
    (state : Jasperstate) (task : Task) :
    ((execute_task fetch state task).task.status = "completed" ∨
      (execute_task fetch state task).task.status = "failed") ∧
    ((execute_task fetch state task).task.status = "completed" →
      ∃ tk v, dictGetS task.tool_args "ticker" = some tk ∧ tk ≠ "" ∧
        fetch tk = .ok v ∧
        (execute_task fetch state task).state
          = { state with task_results := dictSet state.task_results task.id v } ∧
        (execute_task fetch state task).task = { task with status := "completed" }) ∧
    ((execute_task fetch state task).task.status = "failed" →
      (execute_task fetch state task).state = state ∧
      ∃ msg, (execute_task fetch state task).task
          = { task with status := "failed", error := some msg } ∧
        (msg = "No ticker found for task: " ++ task.description ∨
         msg = "Unknown task description: " ++ task.description ∨
         ∃ tk, dictGetS task.tool_args "ticker" = some tk ∧ fetch tk = .error msg)) := by
  by_cases hc : strContains (pyLower task.description) "income statement" = true
  · rcases hg : dictGetS task.tool_args "ticker" with _ | tk
    · have hEq : execute_task fetch state task
          = ⟨state, { task with
              status := "failed",
              error := some ("No ticker found for task: " ++ task.description) }, []⟩ := by
        simp [execute_task, hc, hg]
      rw [hEq]
      refine ⟨Or.inr rfl, ?_, fun _ => ⟨rfl, ?_⟩⟩
      · intro h
        simp at h
      · exact ⟨_, rfl, Or.inl rfl⟩
    · by_cases htk : tk = ""
      · subst htk
        have hEq : execute_task fetch state task
            = ⟨state, { task with
                status := "failed",
                error := some ("No ticker found for task: " ++ task.description) }, []⟩ := by
          simp [execute_task, hc, hg]
        rw [hEq]
        refine ⟨Or.inr rfl, ?_, fun _ => ⟨rfl, ?_⟩⟩
        · intro h
          simp at h
        · exact ⟨_, rfl, Or.inl rfl⟩
      · rcases hf : fetch tk with e | v
        · have hEq : execute_task fetch state task
              = ⟨state, { task with status := "failed", error := some e }, [tk]⟩ := by
            simp [execute_task, hc, hg, htk, hf]
          rw [hEq]
          refine ⟨Or.inr rfl, ?_, fun _ => ⟨rfl, ?_⟩⟩
          · intro h
            simp at h
          · exact ⟨e, rfl, Or.inr (Or.inr ⟨tk, rfl, hf⟩)⟩
        · have hEq : execute_task fetch state task
              = ⟨{ state with task_results := dictSet state.task_results task.id v },
                 { task with status := "completed" }, [tk]⟩ := by
            simp [execute_task, hc, hg, htk, hf]
          rw [hEq]
          refine ⟨Or.inl rfl, fun _ => ⟨tk, v, rfl, htk, hf, rfl, rfl⟩, ?_⟩
          intro h
          simp at h
  · rw [Bool.not_eq_true] at hc
    have hEq : execute_task fetch state task
        = ⟨state, { task with
            status := "failed",
            error := some ("Unknown task description: " ++ task.description) }, []⟩ := by
      simp [execute_task, hc]
    rw [hEq]
    refine ⟨Or.inr rfl, ?_, fun _ => ⟨rfl, ?_⟩⟩
    · intro h
      simp at h
    · exact ⟨_, rfl, Or.inr (Or.inl rfl)⟩

/-- Witness for C2: a concrete successful execution stores the payload and
completes the task, via the theorem's success clause. -/
theorem execute_task_never_raises_witness :
    ∃ tk v, dictGetS wTaskIncome.tool_args "ticker" = some tk ∧ tk ≠ "" ∧
      wFetchOk tk = .ok v ∧
      (execute_task wFetchOk wStateQ wTaskIncome).state
        = { wStateQ with task_results := dictSet wStateQ.task_results wTaskIncome.id v } ∧
      (execute_task wFetchOk wStateQ wTaskIncome).task
        = { wTaskIncome with status := "completed" } :=
  (execute_task_never_raises wFetchOk wStateQ wTaskIncome).2.1 (by decide)

/-- Claim C10: the Execution Stage selects the operation by a
case-insensitive substring test on the task's description, not by
`tool_name`: the router fetch runs only when the lowered description
contains "income statement" (ticker read only from `tool_args["ticker"]`),
and a task without that substring is failed with an
"Unknown task description" error without any router call. -/
theorem executor_selects_by_description (fetch : String → Except String Value)
    (state : Jasperstate) (task : Task) :
    (strContains (pyLower task.description) "income statement" = false →
      (execute_task fetch state task).task
        = { task with
            status := "failed",
            error := some ("Unknown task description: " ++ task.description) } ∧
      (execute_task fetch state task).state = state ∧
      (execute_task fetch state task).fetchCalls = []) ∧
    (∀ tk, strContains (pyLower task.description) "income statement" = true →
      dictGetS task.tool_args "ticker" = some tk → tk ≠ "" →
      (execute_task fetch state task).fetchCalls = [tk]) ∧
    ((execute_task fetch state task).fetchCalls ≠ [] →
      strContains (pyLower task.description) "income statement" = true) ∧
    (∀ n, (execute_task fetch state { task with tool_name := n }).state
          = (execute_task fetch state task).state ∧
      (execute_task fetch state { task with tool_name := n }).fetchCalls
          = (execute_task fetch state task).fetchCalls ∧
      (execute_task fetch state { task with tool_name := n }).task
          = { (execute_task fetch state task).task with tool_name := n }) := by
  by_cases hc : strContains (pyLower task.description) "income statement" = true
  · refine ⟨fun hfalse => absurd hc (by rw [hfalse]; decide), ?_, fun _ => hc, ?_⟩
    · intro tk _ hg htk
      simp [execute_task, hc, hg, htk]
      rcases hf : fetch tk with e | v <;> simp [hf]
    · intro n
      rcases hg : dictGetS task.tool_args "ticker" with _ | tk
      · refine ⟨?_, ?_, ?_⟩ <;> simp [execute_task, hc, hg]
      · by_cases htk : tk = ""
        · subst htk
          refine ⟨?_, ?_, ?_⟩ <;> simp [execute_task, hc, hg]
        · rcases hf : fetch tk with e | v
          · refine ⟨?_, ?_, ?_⟩ <;> simp [execute_task, hc, hg, htk, hf]
          · refine ⟨?_, ?_, ?_⟩ <;> simp [execute_task, hc, hg, htk, hf]
  · rw [Bool.not_eq_true] at hc
    refine ⟨fun _ => ?_, fun tk htrue => absurd htrue (by rw [hc]; decide), ?_, ?_⟩
    · refine ⟨?_, ?_, ?_⟩ <;> simp [execute_task, hc]
    · intro hne
      exact absurd (by simp [execute_task, hc]) hne
    · intro n
      refine ⟨?_, ?_, ?_⟩ <;> simp [execute_task, hc]

/-- Witness for C10: a concrete task whose description lacks the substring
is failed with the "Unknown task description" error and no router call. -/
theorem executor_selects_by_description_witness :
    (execute_task wFetchOk wStateQ wTaskOther).task
      = { wTaskOther with
          status := "failed",
          error := some ("Unknown task description: " ++ wTaskOther.description) } ∧
    (execute_task wFetchOk wStateQ wTaskOther).state = wStateQ ∧
    (execute_task wFetchOk wStateQ wTaskOther).fetchCalls = [] :=
  (executor_selects_by_description wFetchOk wStateQ wTaskOther).1 (by decide)

/-- Claim C1: whenever the run's recorded validation verdict has
`is_valid == false`, the run ends Failed, `final_answer` and `report`
remain unset, and the Synthesis collaborator is never invoked (no
`SYNTHESIS_STARTED` event is emitted). -/
theorem validation_gate_blocks_synthesis (c : Collaborators) (query : String)
    (v : validationresult)
    (hv : (runController c query).1.validation = some v)
    (hinv : v.is_valid = false) :
    (runController c query).1.status = "Failed" ∧
    (runController c query).1.final_answer = none ∧
    (runController c query).1.report = none ∧
    RunEvent.SYNTHESIS_STARTED ∉ (runController c query).2 := by
  rcases hplan : c.plan query with e | plan
  · simp only [runController, hplan] at hv
    simp at hv
  · simp only [runController, hplan] at hv ⊢
    have hpres := runTasks_preserves c.fetch plan
      { query := query, plan := plan, status := "Executing" } [] 0
    have hnone : ({ (runTasks (execStep c.fetch)
        { query := query, plan := plan, status := "Executing" } [] plan 0).1 with
        status := "Validating" } : Jasperstate).validation = none := hpres.2.2.1
    obtain ⟨heq1, heq2⟩ := validationPhase_gate c _ v hnone hv hinv
    refine ⟨?_, ?_, ?_, ?_⟩
    · rw [heq1]
    · rw [heq1]
      exact hpres.2.2.2.1
    · rw [heq1]
      exact hpres.2.2.2.2.2.2
    · rw [heq2]
      intro hmem
      have hT := runTasks_events (execStep c.fetch) plan
        { query := query, plan := plan, status := "Executing" } [] 0
        RunEvent.SYNTHESIS_STARTED
      rcases List.mem_cons.mp hmem with h | hmem2
      · exact absurd h (by decide)
      rcases List.mem_append.mp hmem2 with h | hmem3
      · rcases hT h with h2 | h2 <;> exact absurd h2 (by decide)
      rcases List.mem_cons.mp hmem3 with h | hmem4
      · exact absurd h (by decide)
      · exact absurd (List.mem_singleton.mp hmem4) (by decide)

/-- Concrete collaborators for the C1 witness: the planner yields one
income-statement task, the router has no data, so the embedded validator
rejects the evidence. -/
def wCollabGate : Collaborators :=
  { plan := fun _ => .ok [wTaskIncome]
    fetch := fun _ => .error "no providers"
    validate := fun s => .ok (validate s)
    synthesize := fun _ => .ok "never reached" }

/-- Witness for C1: on the concrete gated run the status is Failed, nothing
synthesis-related is set, and `SYNTHESIS_STARTED` is never emitted. -/
theorem validation_gate_blocks_synthesis_witness :
    (runController wCollabGate "q").1.status = "Failed" ∧
    (runController wCollabGate "q").1.final_answer = none ∧
    (runController wCollabGate "q").1.report = none ∧
    RunEvent.SYNTHESIS_STARTED ∉ (runController wCollabGate "q").2 :=
  validation_gate_blocks_synthesis wCollabGate "q"
    { is_valid := false,
      issues := ["Incomplete task: Fetch AAPL income statement"],
      confidence := 3 / 10 }
    rfl rfl

/-- The service-unavailable signature of the classification policy: a "524"
substring, or "provider returned error" in the lowered message. -/
def ServiceSig (m : String) : Prop :=
  strContains m "524" = true ∨ strContains (pyLower m) "provider returned error" = true

/-- The authorization signature: a "401" substring, or "unauthorized" in the
lowered message. -/
def AuthSig (m : String) : Prop :=
  strContains m "401" = true ∨ strContains (pyLower m) "unauthorized" = true

/-- The timeout signature: "timeout" in the lowered message. -/
def TimeoutSig (m : String) : Prop := strContains (pyLower m) "timeout" = true

/-- The classification inspects the message's signatures in fixed priority
order (service, auth, timeout, unknown), always produces a non-empty error
message, and picks exactly one of the four source tags. -/
theorem classify_synthesis_error_spec (m : String) :
    (classify_synthesis_error m).1 ≠ "" ∧
    ((classify_synthesis_error m).2 = "llm_service" ∨
      (classify_synthesis_error m).2 = "llm_auth" ∨
      (classify_synthesis_error m).2 = "llm_timeout" ∨
      (classify_synthesis_error m).2 = "llm_unknown") ∧
    (ServiceSig m → (classify_synthesis_error m).2 = "llm_service") ∧
    (¬ServiceSig m → AuthSig m → (classify_synthesis_error m).2 = "llm_auth") ∧
    (¬ServiceSig m → ¬AuthSig m → TimeoutSig m →
      (classify_synthesis_error m).2 = "llm_timeout") ∧
    (¬ServiceSig m → ¬AuthSig m → ¬TimeoutSig m →
      (classify_synthesis_error m).2 = "llm_unknown") := by
  by_cases hsv : (strContains m "524" || strContains (pyLower m) "provider returned error") = true
  · have hs : ServiceSig m := Bool.or_eq_true_iff.mp hsv
    have hcl : classify_synthesis_error m
        = ("LLM service error (code 524): Temporary rate limit. Please try again in a moment.",
           "llm_service") := by
      simp only [classify_synthesis_error, hsv, if_true]
    rw [hcl]
    exact ⟨by decide, Or.inl rfl, fun _ => rfl, fun hns _ => absurd hs hns,
      fun hns _ _ => absurd hs hns, fun hns _ _ => absurd hs hns⟩
  · have hns : ¬ServiceSig m := fun h => hsv (Bool.or_eq_true_iff.mpr h)
    rw [Bool.not_eq_true] at hsv
    by_cases hau : (strContains m "401" || strContains (pyLower m) "unauthorized") = true
    · have ha : AuthSig m := Bool.or_eq_true_iff.mp hau
      have hcl : classify_synthesis_error m
          = ("LLM authentication failed. Check your OpenRouter API key.", "llm_auth") := by
        simp only [classify_synthesis_error, hsv, hau, if_true, Bool.false_eq_true, if_false]
      rw [hcl]
      exact ⟨by decide, Or.inr (Or.inl rfl), fun hserv => absurd hserv hns,
        fun _ _ => rfl, fun _ hna _ => absurd ha hna, fun _ hna _ => absurd ha hna⟩
    · have hna : ¬AuthSig m := fun h => hau (Bool.or_eq_true_iff.mpr h)
      rw [Bool.not_eq_true] at hau
      by_cases hto : strContains (pyLower m) "timeout" = true
      · have hcl : classify_synthesis_error m
            = ("LLM request timed out. Please try again.", "llm_timeout") := by
          simp only [classify_synthesis_error, hsv, hau, hto, if_true, Bool.false_eq_true,
            if_false]
        rw [hcl]
        exact ⟨by decide, Or.inr (Or.inr (Or.inl rfl)), fun hserv => absurd hserv hns,
          fun _ hauth => absurd hauth hna, fun _ _ _ => rfl,
          fun _ _ hnt => absurd hto hnt⟩
      · have hnt : ¬TimeoutSig m := hto
        rw [Bool.not_eq_true] at hto
        have hcl : classify_synthesis_error m
            = ("Answer synthesis failed: " ++ m, "llm_unknown") := by
          simp only [classify_synthesis_error, hsv, hau, hto, Bool.false_eq_true, if_false]
        rw [hcl]
        exact ⟨append_ne_empty_left "Answer synthesis failed: " m (by decide),
          Or.inr (Or.inr (Or.inr rfl)), fun hserv => absurd hserv hns,
          fun _ hauth => absurd hauth hna, fun _ _ hti => absurd hti hnt,
          fun _ _ _ => rfl⟩

/-- On a valid verdict followed by a synthesizer failure with message `m`,
the validation phase ends Failed with the classified error and source. -/
theorem validationPhase_synth_error (c : Collaborators) (st : Jasperstate)
    (v : validationresult) (m : String)
    (hval : c.validate st = .ok v) (hvalid : v.is_valid = true)
    (hsyn : ∀ s, c.synthesize s = .error m) :
    (validationPhase c st).1
      = { st with
          validation := some v,
          status := "Failed",
          error := some (classify_synthesis_error m).1,
          error_source := some (classify_synthesis_error m).2 } ∧
    (validationPhase c st).2
      = [RunEvent.SYNTHESIS_STARTED, RunEvent.SYNTHESIS_ERROR] := by
  simp only [validationPhase, hval, hvalid, if_true, synthesisPhase, hsyn]
  constructor <;> trivial

/-- Claim C9: every Synthesis-collaborator failure is classified from its
message text in fixed priority order (service, then auth, then timeout,
defaulting to unknown); the run ends Failed with a non-empty error and
exactly one corresponding `error_source`. -/
theorem synthesis_failure_classified (c : Collaborators) (query : String)
    (ts : List Task) (v : validationresult) (m : String)
    (hplan : c.plan query = .ok ts)
    (hval : ∀ s, c.validate s = .ok v)
    (hvalid : v.is_valid = true)
    (hsyn : ∀ s, c.synthesize s = .error m) :
    (runController c query).1.status = "Failed" ∧
    (runController c query).1.error = some (classify_synthesis_error m).1 ∧
    (runController c query).1.error_source = some (classify_synthesis_error m).2 ∧
    (classify_synthesis_error m).1 ≠ "" ∧
    ((classify_synthesis_error m).2 = "llm_service" ∨
      (classify_synthesis_error m).2 = "llm_auth" ∨
      (classify_synthesis_error m).2 = "llm_timeout" ∨
      (classify_synthesis_error m).2 = "llm_unknown") ∧
    (ServiceSig m → (classify_synthesis_error m).2 = "llm_service") ∧
    (¬ServiceSig m → AuthSig m → (classify_synthesis_error m).2 = "llm_auth") ∧
    (¬ServiceSig m → ¬AuthSig m → TimeoutSig m →
      (classify_synthesis_error m).2 = "llm_timeout") ∧
    (¬ServiceSig m → ¬AuthSig m → ¬TimeoutSig m →
      (classify_synthesis_error m).2 = "llm_unknown") := by
  obtain ⟨hne, hone, hp1, hp2, hp3, hp4⟩ := classify_synthesis_error_spec m
  simp only [runController, hplan]
  obtain ⟨h1, h2⟩ := validationPhase_synth_error c _ v m (hval _) hvalid hsyn
  rw [h1]
  exact ⟨rfl, rfl, rfl, hne, hone, hp1, hp2, hp3, hp4⟩

/-- Concrete collaborators for the C9 witness: a valid verdict, then the
synthesizer throws a timeout-worded failure. -/
def wCollabSynthFail : Collaborators :=
  { plan := fun _ => .ok [wTaskIncome]
    fetch := fun _ => .ok (Value.vInt 7)
    validate := fun _ => .ok { is_valid := true, issues := [], confidence := 9 / 10 }
    synthesize := fun _ => .error "Connection TIMEOUT while sending prompt" }

/-- Witness for C9: the timeout-worded failure yields status Failed with
`error_source == "llm_timeout"` and the fixed timeout message. -/
theorem synthesis_failure_classified_witness :
    (runController wCollabSynthFail "q").1.status = "Failed" ∧
    (runController wCollabSynthFail "q").1.error
      = some "LLM request timed out. Please try again." ∧
    (runController wCollabSynthFail "q").1.error_source = some "llm_timeout" := by
  have h := synthesis_failure_classified wCollabSynthFail "q" [wTaskIncome]
    { is_valid := true, issues := [], confidence := 9 / 10 }
    "Connection TIMEOUT while sending prompt" rfl (fun _ => rfl) rfl (fun _ => rfl)
  refine ⟨h.1, ?_, ?_⟩
  · rw [h.2.1]
    rfl
  · rw [h.2.2.1]
    rfl

/-- Counterexample for C6: a run failing at the validation gate ends Failed
with `error` left unset — the claim that every Failed run carries a
non-empty error is false on the code. -/
theorem failed_gate_run_has_no_error :
    (runController wCollabGate "q").1.status = "Failed" ∧
    (runController wCollabGate "q").1.error = none := ⟨rfl, rfl⟩

/-- Case analysis of a Failed validation phase: a validator exception wraps
its message, the hard gate leaves `error` untouched, and a synthesis failure
stores the classified message. -/
theorem validationPhase_error_cases (c : Collaborators) (st : Jasperstate)
    (hfail : (validationPhase c st).1.status = "Failed") :
    (∃ e, c.validate st = .error e ∧
      (validationPhase c st).1.error = some ("Validation error: " ++ e)) ∨
    (∃ v, c.validate st = .ok v ∧ v.is_valid = false ∧
      (validationPhase c st).1.error = st.error ∧
      (validationPhase c st).1.validation = some v) ∨
    (∃ m, (validationPhase c st).1.error = some (classify_synthesis_error m).1) := by
  rcases hval : c.validate st with e | v
  · left
    exact ⟨e, rfl, by simp [validationPhase, hval]⟩
  · cases hb : v.is_valid with
    | false =>
        right; left
        refine ⟨v, rfl, hb, ?_, ?_⟩ <;> simp [validationPhase, hval, hb]
    | true =>
        right; right
        rcases hsyn : c.synthesize { { st with validation := some v } with
          status := "Synthesizing" } with m | ans
        · exact ⟨m, by simp [validationPhase, hval, hb, synthesisPhase, hsyn]⟩
        · exfalso
          simp only [validationPhase, hval, hb, if_true, synthesisPhase, hsyn] at hfail
          exact absurd hfail (by simp)

/-- Claim C6 (amended): every Failed run whose planning failure (if any)
carried a non-empty message either carries a non-empty `error`, or failed at
the validation gate, in which case `error` stays unset and the invalid
verdict is recorded in `validation`. -/
theorem failed_run_error_amended (c : Collaborators) (query : String)
    (hplan : ∀ e, c.plan query = .error e → e ≠ "")
    (hfail : (runController c query).1.status = "Failed") :
    (∃ m, (runController c query).1.error = some m ∧ m ≠ "") ∨
    ((runController c query).1.error = none ∧
      ∃ v, (runController c query).1.validation = some v ∧ v.is_valid = false) := by
  rcases hplan0 : c.plan query with e | plan
  · left
    simp only [runController, hplan0]
    exact ⟨e, rfl, hplan e hplan0⟩
  · simp only [runController, hplan0] at hfail ⊢
    have hpres := runTasks_preserves c.fetch plan
      { query := query, plan := plan, status := "Executing" } [] 0
    rcases validationPhase_error_cases c _ hfail with
      ⟨e2, _, herr⟩ | ⟨v2, _, hbv, herr, hvv⟩ | ⟨m, herr⟩
    · left
      exact ⟨_, herr, append_ne_empty_left "Validation error: " e2 (by decide)⟩
    · right
      refine ⟨?_, v2, hvv, hbv⟩
      rw [herr]
      exact hpres.2.2.2.2.1
    · left
      exact ⟨_, herr, (classify_synthesis_error_spec m).1⟩

/-- Collaborators for the C6 witness: the planner throws with a non-empty
message, so the run fails carrying that message. -/
def wCollabPlanFail : Collaborators :=
  { plan := fun _ => .error "Planner produced empty task list"
    fetch := fun _ => .ok (Value.vInt 7)
    validate := fun s => .ok (validate s)
    synthesize := fun _ => .ok "x" }

/-- Witness for C6 (amended) at a concrete planning failure. -/
theorem failed_run_error_amended_witness :
    (∃ m, (runController wCollabPlanFail "q").1.error = some m ∧ m ≠ "") ∨
    ((runController wCollabPlanFail "q").1.error = none ∧
      ∃ v, (runController wCollabPlanFail "q").1.validation = some v ∧
        v.is_valid = false) :=
  failed_run_error_amended wCollabPlanFail "q"
    (fun e h => by
      injection h with h2
      rw [← h2]
      decide)
    rfl

/-- A list containing a member is not `isEmpty`. -/
theorem isEmpty_false_of_mem {α : Type} {a : α} {l : List α} (h : a ∈ l) :
    l.isEmpty = false := by
  cases l
  · simp at h
  · rfl

/-- The shape check 3 of the validator looks for: a report dict with a
`totalRevenue` entry that is not `None` and coerces to a negative number. -/
def NegRevenueShape (r : Value) : Prop :=
  ∃ kvs rv q, r = Value.vDict kvs ∧ dictGet kvs "totalRevenue" = some rv ∧
    rv.isNull = false ∧ pyFloat rv = some q ∧ q < 0

theorem reportHasNegativeRevenue_iff (r : Value) :
    reportHasNegativeRevenue r = true ↔ NegRevenueShape r := by
  constructor
  · intro h
    cases r with
    | vDict kvs =>
        rcases hg : dictGet kvs "totalRevenue" with _ | rv
        · simp only [reportHasNegativeRevenue, hg] at h
          exact absurd h Bool.false_ne_true
        · simp only [reportHasNegativeRevenue, hg] at h
          by_cases hn : rv.isNull = true
          · simp [hn] at h
          · rw [Bool.not_eq_true] at hn
            simp only [hn, Bool.false_eq_true, if_false] at h
            rcases hf : pyFloat rv with _ | q
            · simp only [hf] at h
              exact absurd h Bool.false_ne_true
            · simp only [hf] at h
              exact ⟨kvs, rv, q, rfl, hg, hn, hf, of_decide_eq_true h⟩
    | vNull => simp [reportHasNegativeRevenue] at h
    | vBool b => simp [reportHasNegativeRevenue] at h
    | vInt n => simp [reportHasNegativeRevenue] at h
    | vStr s => simp [reportHasNegativeRevenue] at h
    | vList xs => simp [reportHasNegativeRevenue] at h
  · rintro ⟨kvs, rv, q, rfl, hg, hn, hf, hq⟩
    simp only [reportHasNegativeRevenue, hg, hn, Bool.false_eq_true, if_false, hf]
    exact decide_eq_true hq

/-- Claim C5: a task-result payload (single mapping or sequence of mappings)
carrying a revenue value that coerces to a negative number makes validate
emit "Negative revenue detected" and an invalid verdict; payloads with
absent or non-coercible revenue values add no financial issue. -/
theorem negative_revenue_detection (state : Jasperstate) :
    ((∃ p ∈ state.task_results, ∃ r ∈ normalizeReports p.2, NegRevenueShape r) →
      "Negative revenue detected" ∈ (validate state).issues ∧
      (validate state).is_valid = false) ∧
    ((∀ p ∈ state.task_results, ∀ r ∈ normalizeReports p.2, ¬NegRevenueShape r) →
      financialIssues state = []) := by
  constructor
  · rintro ⟨p, hp, r, hr, hshape⟩
    have hb : reportHasNegativeRevenue r = true :=
      (reportHasNegativeRevenue_iff r).mpr hshape
    have hfin : "Negative revenue detected" ∈ financialIssues state := by
      rw [financialIssues, List.mem_flatMap]
      refine ⟨p, hp, ?_⟩
      rw [List.mem_filterMap]
      exact ⟨r, hr, by simp [hb]⟩
    have hmem : "Negative revenue detected" ∈ (validate state).issues := by
      simp only [validate]
      exact List.mem_append.mpr (Or.inr hfin)
    refine ⟨hmem, ?_⟩
    simp only [validate]
    exact isEmpty_false_of_mem (List.mem_append.mpr (Or.inr hfin))
  · intro hall
    rw [financialIssues, List.flatMap_eq_nil_iff]
    intro p hp
    rw [List.filterMap_eq_nil_iff]
    intro r hr
    have hnb : ¬reportHasNegativeRevenue r = true :=
      fun hb => hall p hp r hr ((reportHasNegativeRevenue_iff r).mp hb)
    rw [Bool.not_eq_true] at hnb
    simp [hnb]

/-- State from the spec's example for C5: task t1 completed, payload
totalRevenue "-5". -/
def wStateNegRev : Jasperstate :=
  { query := "q"
    plan := [{ id := "t1", description := "Fetch AAPL income statement",
               status := "completed" }]
    task_results := [("t1", Value.vDict [("totalRevenue", Value.vStr "-5")])] }

/-- Witness for C5 at the spec's example input. -/
theorem negative_revenue_detection_witness :
    "Negative revenue detected" ∈ (validate wStateNegRev).issues ∧
    (validate wStateNegRev).is_valid = false :=
  (negative_revenue_detection wStateNegRev).1
    ⟨("t1", Value.vDict [("totalRevenue", Value.vStr "-5")]),
     List.mem_singleton.mpr rfl,
     Value.vDict [("totalRevenue", Value.vStr "-5")],
     List.mem_singleton.mpr rfl,
     [("totalRevenue", Value.vStr "-5")], Value.vStr "-5", -5,
     rfl, rfl, rfl, by decide, by decide⟩

/-- State exercising claim C7: one task with status completed but a non-null
recorded error, and a non-empty result payload. -/
def wStateTaskErr : Jasperstate :=
  { query := "test"
    plan := [{ id := "task1", description := "Fetch data", status := "completed",
               error := some "Provider timeout" }]
    task_results := [("task1",
      Value.vDict [("fiscalDateEnding", Value.vStr "2023-12-31")])] }

/-- Claim C7 evaluated at the failing input: the plan carries a task with a
non-null error, yet validate adds no issue and reports a valid verdict —
the code never inspects `task.error`, contradicting the claim (and the
repository's own test for the successor validator). -/
theorem validator_ignores_completed_task_error :
    (wStateTaskErr.plan.filter (fun t => t.errTruthy)).length = 1 ∧
    (validate wStateTaskErr).issues = [] ∧
    (validate wStateTaskErr).is_valid = true := ⟨rfl, rfl, rfl⟩

/-- State with a three-task plan and one stored result: the coverage ratio
is 1/3, which the code rounds when reporting the breakdown field. -/
def wStateThird : Jasperstate :=
  { query := "q"
    plan := [{ id := "a", description := "x" }, { id := "b", description := "y" },
             { id := "c", description := "z" }]
    task_results := [("a", Value.vInt 1)] }

/-- Counterexample for C8: with 3 tasks and 1 result the reported
`data_coverage` is the rounded 0.33, not the exact ratio 1/3 the claim
states. -/
theorem confidence_coverage_rounded_counterexample :
    (compute_confidence wStateThird).data_coverage = 33 / 100 ∧
    (wStateThird.task_results.length : ℚ) / (wStateThird.plan.length : ℚ) = 1 / 3 ∧
    (33 / 100 : ℚ) ≠ 1 / 3 := by
  refine ⟨?_, by norm_num [wStateThird], by norm_num⟩
  simp only [compute_confidence, wStateThird]
  norm_num [round2, Task.errTruthy]

/-- The per-errored-task penalty loop of `compute_confidence` computes the
initial value minus 0.2 per task whose recorded error is truthy. -/
theorem foldl_quality_eq (l : List Task) : ∀ init : ℚ,
    l.foldl (fun acc t => if t.errTruthy then acc - 1 / 5 else acc) init
      = init - ((l.filter (fun t => t.errTruthy)).length : ℚ) / 5 := by
  induction l with
  | nil => intro init; simp
  | cons t l ih =>
      intro init
      by_cases h : t.errTruthy = true
      · simp only [List.foldl_cons, List.filter_cons, h, if_true]
        rw [ih]
        simp only [List.length_cons]
        push_cast
        ring
      · rw [Bool.not_eq_true] at h
        simp only [List.foldl_cons, List.filter_cons, h, Bool.false_eq_true, if_false]
        rw [ih]

/-- Claim C8 (amended): the breakdown's `data_coverage` and `data_quality`
are the coverage ratio and the 0.2-per-errored-task quality, each rounded to
two decimals; `inference_strength` is 0.8 when the unrounded ratio exceeds
0.8 and 0.5 otherwise; `overall` is the mean of the unrounded ratio, the
unrounded quality and the inference constant, rounded to two decimals; an
empty plan yields the all-zero breakdown. -/
theorem confidence_breakdown_formula (state : Jasperstate) :
    (state.plan = [] →
      compute_confidence state = ⟨0, 0, 0, 0⟩) ∧
    (state.plan ≠ [] →
      compute_confidence state =
        ⟨round2 ((state.task_results.length : ℚ) / (state.plan.length : ℚ)),
         round2 (max 0 (1 - ((state.plan.filter (fun t => t.errTruthy)).length : ℚ) / 5)),
         (if 4 / 5 < (state.task_results.length : ℚ) / (state.plan.length : ℚ)
           then (4 : ℚ) / 5 else 1 / 2),
         round2 ((((state.task_results.length : ℚ) / (state.plan.length : ℚ))
           + max 0 (1 - ((state.plan.filter (fun t => t.errTruthy)).length : ℚ) / 5)
           + (if 4 / 5 < (state.task_results.length : ℚ) / (state.plan.length : ℚ)
               then (4 : ℚ) / 5 else 1 / 2)) / 3)⟩) := by
  constructor
  · intro h
    simp [compute_confidence, h]
  · intro h
    have hne : state.plan.isEmpty = false := by
      cases hp : state.plan
      · exact absurd hp h
      · rfl
    simp only [compute_confidence, hne, Bool.false_eq_true, if_false]
    rw [foldl_quality_eq]

/-- Witness for C8 (amended): the three-task, one-result state evaluates to
the concrete rounded breakdown 0.33 / 1.0 / 0.5 / 0.61. -/
theorem confidence_breakdown_formula_witness :
    compute_confidence wStateThird = ⟨33 / 100, 1, 1 / 2, 61 / 100⟩ := by
  have h := (confidence_breakdown_formula wStateThird).2 (by simp [wStateThird])
  rw [h]
  simp only [wStateThird, ConfidenceBreakdown.mk.injEq]
  norm_num [round2, Task.errTruthy]

end Jasper
